import Mathlib

/-!
Verification development for the nexus-bridge MCP server.

The definitions below are a shallow embedding of the repository's core:
the chain/token registries (`src/config/chains.ts`, `src/config/tokens.ts`),
the operation ledger (`status.service`, found at the tail of
`src/services/nexus.service.ts`), the EIP-1193 provider adapter
(`src/services/eip1193-adapter.ts`), and the `execute_bridge` orchestrator
(the MCP entry point, `src/unnamed/part_005`).

Modelling conventions:
* JavaScript `Map` objects become association lists with `mapGet` / `mapSet`
  mirroring `Map.get` / `Map.set` (replace in place, append when absent).
* Timestamps (`Date.now()`) are explicit `Nat` parameters.
* Effectful steps of the orchestrator (the on-chain allowance read, the
  approval transaction, the receipt wait, and the external bridging engine
  call) are driven by an explicit environment `ExecEnv` recording the outcome
  each network interaction would have; the orchestrator additionally returns
  a trace of the network operations it performed, in order.
* `BigInt(Math.round(parseFloat(amount) * 10 ** decimals))` is modelled by
  exact rational arithmetic on well-formed decimal numerals (`rawAmountOf`);
  on such numerals the double-precision computation in the source and the
  exact computation agree on every value small enough to be exactly
  representable, which covers every concrete input used below.  Inputs that
  `parseFloat` to `NaN` make `BigInt` throw in the source; `rawAmountOf`
  returns `none` for them and the orchestrator model throws accordingly.
-/

/-- `Map.get`: first entry with the given key, mirroring a JS `Map` lookup. -/
def mapGet {κ α : Type} [DecidableEq κ] : List (κ × α) → κ → Option α
  | [], _ => none
  | e :: rest, k => if e.1 = k then some e.2 else mapGet rest k

/-- `Map.set`: replace the entry in place when the key exists (a JS `Map`
keeps the original insertion position), append otherwise. -/
def mapSet {κ α : Type} [DecidableEq κ] : List (κ × α) → κ → α → List (κ × α)
  | [], k, v => [(k, v)]
  | e :: rest, k, v => if e.1 = k then (k, v) :: rest else e :: mapSet rest k v

/-- Number of entries stored under a key (a real `Map` always has 0 or 1). -/
def keyCount {κ α : Type} [DecidableEq κ] (l : List (κ × α)) (k : κ) : Nat :=
  (l.filter (fun e => decide (e.1 = k))).length

/-- Hex digit characters of `n`, most significant first, with explicit fuel;
mirrors JS `Number.prototype.toString(16)` (lowercase digits, `"0"` for 0).
`fuel = n + 1` is always sufficient. -/
def hexCharsAux : Nat → Nat → List Char
  | 0, _ => []
  | fuel + 1, n =>
    if n < 16 then [Nat.digitChar n]
    else hexCharsAux fuel (n / 16) ++ [Nat.digitChar (n % 16)]

/-- JS `` `0x${n.toString(16)}` `` — the chain-id encoding used by the
adapter for `eth_chainId` results and `chainChanged` event payloads. -/
def toHex (n : Nat) : String := String.mk ('0' :: 'x' :: hexCharsAux (n + 1) n)

/-- A lowercase hexadecimal digit. -/
def isHexDigitChar (c : Char) : Bool :=
  c.isDigit || (97 ≤ c.toNat && c.toNat ≤ 102)

/-- The `0x`-prefixed, lowercase, nonempty hexadecimal string format. -/
def isHexChainString (s : String) : Bool :=
  match s.data with
  | '0' :: 'x' :: rest => !rest.isEmpty && rest.all isHexDigitChar
  | _ => false

/-! ## Chain and token registries (`src/config/chains.ts`, `src/config/tokens.ts`) -/

structure ChainConfig where
  id : Nat
  caip : String
  name : String
  rpcUrl : Option String
  blockExplorer : Option String
deriving DecidableEq

def MAINNET_CHAINS : List ChainConfig :=
  [⟨8453, "eip155:8453", "Base", some "https://mainnet.base.org",
      some "https://basescan.org"⟩,
   ⟨10, "eip155:10", "Optimism", some "https://mainnet.optimism.io",
      some "https://optimistic.etherscan.io"⟩,
   ⟨42161, "eip155:42161", "Arbitrum", some "https://arb1.arbitrum.io/rpc",
      some "https://arbiscan.io"⟩,
   ⟨137, "eip155:137", "Polygon", some "https://polygon-rpc.com",
      some "https://polygonscan.com"⟩]

def TESTNET_CHAINS : List ChainConfig :=
  [⟨84532, "eip155:84532", "Base Sepolia", some "https://sepolia.base.org",
      some "https://sepolia.basescan.org"⟩,
   ⟨11155420, "eip155:11155420", "OP Sepolia", some "https://sepolia.optimism.io",
      some "https://sepolia-optimism.etherscan.io"⟩,
   ⟨421614, "eip155:421614", "Arbitrum Sepolia",
      some "https://sepolia-rollup.arbitrum.io/rpc",
      some "https://sepolia.arbiscan.io"⟩]

def getSupportedChains (testnet : Bool) : List ChainConfig :=
  if testnet then TESTNET_CHAINS else MAINNET_CHAINS

def getChainById (chainId : Nat) (testnet : Bool) : Option ChainConfig :=
  (getSupportedChains testnet).find? (fun c => c.id == chainId)

structure TokenConfig where
  symbol : String
  name : String
  decimals : Nat
  addresses : List (Nat × String)
deriving DecidableEq

def SUPPORTED_TOKENS : List (String × TokenConfig) :=
  [("USDC",
    { symbol := "USDC", name := "USD Coin", decimals := 6,
      addresses :=
        [(8453, "0x833589fCD6eDb6E08f4c7C32D4f71b54bdA02913"),
         (10, "0x0b2C639c533813f4Aa9D7837CAf62653d097Ff85"),
         (42161, "0xaf88d065e77c8cC2239327C5EDb3A432268e5831"),
         (137, "0x3c499c542cEF5E3811e1192ce70d8cC03d5c3359"),
         (84532, "0x036CbD53842c5426634e7929541eC2318f3dCF7e"),
         (11155420, "0x5fd84259d66Cd46123540766Be93DFE6D43130D7"),
         (421614, "0x75faf114eafb1BDbe2F0316DF893fd58CE46AA4d")] }),
   ("USDT",
    { symbol := "USDT", name := "Tether USD", decimals := 6,
      addresses :=
        [(8453, "0xfde4C96c8593536E31F229EA8f37b2ADa2699bb2"),
         (10, "0x94b008aA00579c1307B0EF2c499aD98a8ce58e58"),
         (42161, "0xFd086bC7CD5C481DCC9C85ebE478A1C0b69FCbb9"),
         (137, "0xc2132D05D31c914a87C6611C10748AEb04B58e8F")] })]

def getTokenAddress (symbol : String) (chainId : Nat) : Option String :=
  (mapGet SUPPORTED_TOKENS symbol).bind (fun t => mapGet t.addresses chainId)

/-- Nexus vault contract addresses (`VAULT_CONTRACTS` in the orchestrator),
keyed by the network mode. -/
def vaultContracts (testnet : Bool) : List (Nat × String) :=
  if testnet then
    [(84532, "0xa7458040272226378397c3036eda862d60c3b307"),
     (11155420, "0x10b69f0e3c21c1187526940a615959e9ee6012f9"),
     (421614, "0x10b69f0e3c21c1187526940a615959e9ee6012f9"),
     (11155111, "0xd579b76e3f51884c50eb8e8efdef5c593666b8fb")]
  else
    [(8453, "0xC0DED5d7F424276c821AF21F68E1e663bC671C3D"),
     (10, "0xC0DED5d7F424276c821AF21F68E1e663bC671C3D"),
     (42161, "0xC0DED5d7F424276c821AF21F68E1e663bC671C3D"),
     (137, "0xC0DED5d7F424276c821AF21F68E1e663bC671C3D")]

/-! ## Operation Ledger (`status.service`) -/

inductive OpStatus where
  | pending
  | completed
  | failed
deriving DecidableEq

structure BridgeOperation where
  id : String
  txHash : String
  fromChainId : Nat
  toChainId : Nat
  token : String
  amount : String
  status : OpStatus
  error : Option String
  createdAt : Nat
  updatedAt : Nat
deriving DecidableEq

structure ReportData where
  operationId : String
  txHash : String
  fromChainId : Nat
  toChainId : Nat
  token : String
  amount : String
  status : OpStatus
  error : Option String
deriving DecidableEq

/-- The module-level `operations` map of `status.service`. -/
abbrev OperationsMap := List (String × BridgeOperation)

/-- `reportBridgeStatus(data)`: build the full record from `data`, keeping
only the `createdAt` of an existing record for the same id, and store it.
`now` stands for `Date.now()`. -/
def reportBridgeStatus (ops : OperationsMap) (now : Nat) (data : ReportData) :
    BridgeOperation × OperationsMap :=
  let existing := mapGet ops data.operationId
  let operation : BridgeOperation :=
    { id := data.operationId
      txHash := data.txHash
      fromChainId := data.fromChainId
      toChainId := data.toChainId
      token := data.token
      amount := data.amount
      status := data.status
      error := data.error
      createdAt := match existing with
        | some e => e.createdAt
        | none => now
      updatedAt := now }
  (operation, mapSet ops data.operationId operation)

/-- `getBridgeStatus(id)`. -/
def getBridgeStatus (ops : OperationsMap) (id : String) : Option BridgeOperation :=
  mapGet ops id

/-! ## EIP-1193 provider adapter (`src/services/eip1193-adapter.ts`)

`chainMap` holds the registered chains (`chainId → { chain, rpcUrl }`);
`currentChainId` is the `ActiveChainPointer`; `events` logs the
`(eventName, payload)` pairs emitted so far, in order.  The hex chain-id
parameter of `wallet_switchEthereumChain` / `wallet_addEthereumChain` is
modelled after `parseInt(·, 16)` has been applied, i.e. as the `Nat` it
decodes to. -/

structure ChainEntry where
  id : Nat
  name : String
  rpcUrl : Option String
deriving DecidableEq

structure ProviderState where
  currentChainId : Nat
  chainMap : List (Nat × ChainEntry)
  events : List (String × String)
deriving DecidableEq

/-- `eth_chainId`: the active chain id as `` `0x${id.toString(16)}` ``. -/
def eth_chainId (s : ProviderState) : String := toHex s.currentChainId

inductive SwitchResult where
  | ok
  | err (code : Nat) (msg : String)
deriving DecidableEq

/-- `wallet_switchEthereumChain`: throw a code-4902 error if the target is
not in `chainMap`; otherwise set `currentChainId`, emit one `chainChanged`
event with the hex-encoded new id, and return `null`. -/
def wallet_switchEthereumChain (s : ProviderState) (newChainId : Nat) :
    SwitchResult × ProviderState :=
  if (mapGet s.chainMap newChainId).isSome then
    (SwitchResult.ok,
     { s with currentChainId := newChainId,
              events := s.events ++ [("chainChanged", toHex newChainId)] })
  else
    (SwitchResult.err 4902 s!"Unrecognized chain {newChainId}", s)

structure AddChainParams where
  chainId : Nat
  chainName : String
  rpcUrls : Option (List String)
deriving DecidableEq

/-- `wallet_addEthereumChain`: register the chain (with the first offered
RPC URL, if any) only when the id is not yet known; always return `null`. -/
def wallet_addEthereumChain (s : ProviderState) (p : AddChainParams) :
    Option String × ProviderState :=
  if (mapGet s.chainMap p.chainId).isSome then (none, s)
  else
    let rpcUrl := p.rpcUrls.bind (fun urls => urls.head?)
    (none,
     { s with chainMap :=
        mapSet s.chainMap p.chainId ⟨p.chainId, p.chainName, rpcUrl⟩ })

/-! ## Bridge orchestrator (`execute_bridge` in `src/unnamed/part_005`) -/

/-- Value of a digit string, most significant digit first. -/
def digitsVal (cs : List Char) : Nat :=
  cs.foldl (fun acc c => acc * 10 + (c.toNat - 48)) 0

/-- `String.prototype.toUpperCase()` for the ASCII token symbols used here,
over the character list so that concrete calls evaluate in the kernel. -/
def toUpperStr (s : String) : String := String.mk (s.toList.map Char.toUpper)

/-- Split a character list at `'.'` separators, keeping empty segments,
like JS `String.prototype.split(".")`. -/
def splitOnDot : List Char → List (List Char)
  | [] => [[]]
  | c :: rest =>
    let r := splitOnDot rest
    if c == '.' then [] :: r
    else
      match r with
      | [] => [[c]]
      | h :: t => (c :: h) :: t

/-- `BigInt(Math.round(parseFloat(amount) * 10 ** decimals))` on well-formed
decimal numerals (`ddd`, `ddd.ddd`, `.ddd`, `ddd.`), by exact arithmetic:
the numeral `n / 10^f` scaled by `10^decimals` and rounded half-up
(`Math.round`).  Other strings make `parseFloat` return `NaN` and `BigInt`
throw; they are mapped to `none`. -/
def rawAmountOf (s : String) (decimals : Nat) : Option Nat :=
  match splitOnDot s.toList with
  | [intPart] =>
    if !intPart.isEmpty && intPart.all Char.isDigit then
      some (digitsVal intPart * 10 ^ decimals)
    else none
  | [intPart, fracPart] =>
    if !(intPart.isEmpty && fracPart.isEmpty)
        && intPart.all Char.isDigit
        && fracPart.all Char.isDigit then
      let n := digitsVal (intPart ++ fracPart)
      let f := fracPart.length
      some ((2 * n * 10 ^ decimals + 10 ^ f) / (2 * 10 ^ f))
    else none
  | _ => none

/-- `maxUint256` from viem: the approval amount requested by the guard. -/
def maxUint256 : Nat := 2 ^ 256 - 1

/-- Possible runs of `NexusService.bridge` (`src/services/nexus.service.ts`):
`throws` covers the `ensureInitialized` throw (SDK failed to load inside
`initialize`, which swallows its own errors); `completedRun` is the path
where `sdk.bridge` resolves (always `success: true`); `failedRun` is the
catch inside `NexusService.bridge` (always `success: false` with the error
message). -/
inductive EngineRun where
  | throws (msg : String)
  | completedRun (txHash : Option String) (explorerUrl : Option String)
  | failedRun (msg : String)
deriving DecidableEq

structure BridgeResult where
  success : Bool
  explorerUrl : Option String
  txHash : Option String
  error : Option String
deriving DecidableEq

/-- The `BridgeResult` value produced by `NexusService.bridge` for each run. -/
def engineOutcome : EngineRun → Except String BridgeResult
  | EngineRun.throws m => Except.error m
  | EngineRun.completedRun tx ex => Except.ok ⟨true, ex, tx, none⟩
  | EngineRun.failedRun m => Except.ok ⟨false, none, none, some m⟩

/-- One network interaction performed during an `execute_bridge` call:
the allowance `readContract`, the approval `writeContract`, the receipt
wait, and the engine's transfer invocation. -/
inductive NetEvent where
  | allowanceRead (chainId : Nat) (tokenAddress vault : String)
  | approvalSubmitted (chainId : Nat) (tokenAddress vault : String) (amount : Nat)
  | waitConfirmations (count : Nat)
  | engineBridge (token : String) (amount : Nat) (toChainId : Nat)
deriving DecidableEq

/-- Outcomes the environment assigns to the effectful steps of one
`execute_bridge` call.  `opId` is the generated operation id
(`bridge-${Date.now()}-${random}`), `reportTime` the `Date.now()` used by
the ledger write. -/
structure ExecEnv where
  opId : String
  reportTime : Nat
  allowance : Except String Nat
  approveTx : Except String String
  waitReceipt : Except String Unit
  engine : EngineRun

/-- The pre-approval block (lines 333–371 of the orchestrator), entered when
both a vault address and a token address exist for the source chain: read
the allowance; if it is below twice the raw amount, submit an approval for
`maxUint256` and wait for 2 confirmations, else skip.  Returns the thrown
error, if any, and the trace of network operations. -/
def preApprove (env : ExecEnv) (fromChainId : Nat) (tokenAddress vault : String)
    (rawAmount : Nat) : Except String Unit × List NetEvent :=
  match env.allowance with
  | Except.error e => (Except.error e, [NetEvent.allowanceRead fromChainId tokenAddress vault])
  | Except.ok current =>
    if current < 2 * rawAmount then
      match env.approveTx with
      | Except.error e =>
        (Except.error e, [NetEvent.allowanceRead fromChainId tokenAddress vault])
      | Except.ok _hash =>
        match env.waitReceipt with
        | Except.error e =>
          (Except.error e,
           [NetEvent.allowanceRead fromChainId tokenAddress vault,
            NetEvent.approvalSubmitted fromChainId tokenAddress vault maxUint256])
        | Except.ok _ =>
          (Except.ok (),
           [NetEvent.allowanceRead fromChainId tokenAddress vault,
            NetEvent.approvalSubmitted fromChainId tokenAddress vault maxUint256,
            NetEvent.waitConfirmations 2])
    else
      (Except.ok (), [NetEvent.allowanceRead fromChainId tokenAddress vault])

/-- The `nexus.bridge` invocation together with its trace entry. -/
def runEngine (env : ExecEnv) (tokenUpper : String) (rawAmount : Nat)
    (toChainId : Nat) : Except String BridgeResult × List NetEvent :=
  (engineOutcome env.engine, [NetEvent.engineBridge tokenUpper rawAmount toChainId])

/-- The `try` block of `execute_bridge` after validation: compute the raw
amount (throwing on a `NaN` conversion), run the pre-approval block when a
vault and a token address are configured for the source chain (skipped
entirely otherwise), then invoke the engine.  Produces the result together
with the raw amount, or the thrown error message, plus the network trace. -/
def runTry (testnet : Bool) (env : ExecEnv) (fromChainId toChainId : Nat)
    (tokenUpper amount : String) (decimals : Nat) :
    Except String (BridgeResult × Nat) × List NetEvent :=
  match rawAmountOf amount decimals with
  | none => (Except.error "The number NaN cannot be converted to a BigInt", [])
  | some rawAmount =>
    match mapGet (vaultContracts testnet) fromChainId,
          getTokenAddress tokenUpper fromChainId with
    | some vault, some tokenAddress =>
      match preApprove env fromChainId tokenAddress vault rawAmount with
      | (Except.error e, tr) => (Except.error e, tr)
      | (Except.ok _, tr) =>
        match runEngine env tokenUpper rawAmount toChainId with
        | (Except.error e, tr2) => (Except.error e, tr ++ tr2)
        | (Except.ok r, tr2) => (Except.ok (r, rawAmount), tr ++ tr2)
    | _, _ =>
      match runEngine env tokenUpper rawAmount toChainId with
      | (Except.error e, tr2) => (Except.error e, tr2)
      | (Except.ok r, tr2) => (Except.ok (r, rawAmount), tr2)

/-- Environment configuration (`src/config/env.ts`). -/
structure EnvConfig where
  NETWORK_MODE : String
  PRIVATE_KEY : Option String
deriving DecidableEq

def isTestnetFor (cfg : EnvConfig) : Bool := cfg.NETWORK_MODE == "testnet"

/-- MCP tool response: the body text (JSON bodies of the outcome paths are
abridged to the fields the claims inspect; validation and configuration
messages are verbatim) and the `isError` flag. -/
structure ToolResponse where
  text : String
  isError : Bool
deriving DecidableEq

structure ExecOutcome where
  response : ToolResponse
  ops : OperationsMap
  trace : List NetEvent
deriving DecidableEq

/-- The `execute_bridge` tool handler: check the signing key, resolve both
chains and the token symbol (returning early, with no ledger write and no
network call, on failure), then run the `try` block; on a normal engine
result write a `completed`/`failed` ledger record carrying the raw amount's
decimal string, and on a caught exception write a `failed` record carrying
the human-readable input amount and the exception message. -/
def execute_bridge (cfg : EnvConfig) (env : ExecEnv) (ops : OperationsMap)
    (fromChainId toChainId : Nat) (token amount : String) : ExecOutcome :=
  match cfg.PRIVATE_KEY with
  | none =>
    ⟨⟨"PRIVATE_KEY is not set in environment. Cannot execute bridge without a wallet.",
      true⟩, ops, []⟩
  | some _ =>
    let testnet := isTestnetFor cfg
    let mode := cfg.NETWORK_MODE
    match getChainById fromChainId testnet with
    | none =>
      ⟨⟨s!"Source chain {fromChainId} not supported in {mode} mode.", true⟩, ops, []⟩
    | some _fromChain =>
      match getChainById toChainId testnet with
      | none =>
        ⟨⟨s!"Destination chain {toChainId} not supported in {mode} mode.", true⟩,
          ops, []⟩
      | some _toChain =>
        let tokenUpper := toUpperStr token
        match mapGet SUPPORTED_TOKENS tokenUpper with
        | none => ⟨⟨s!"Token {token} is not supported.", true⟩, ops, []⟩
        | some tokenConfig =>
          let operationId := env.opId
          match runTry testnet env fromChainId toChainId tokenUpper amount
              tokenConfig.decimals with
          | (Except.ok (result, rawAmount), tr) =>
            let status := if result.success then OpStatus.completed else OpStatus.failed
            let rep := reportBridgeStatus ops env.reportTime
              { operationId := operationId
                txHash := result.txHash.getD ""
                fromChainId := fromChainId
                toChainId := toChainId
                token := tokenUpper
                amount := toString rawAmount
                status := status
                error := result.error }
            ⟨⟨s!"operation {operationId}", !result.success⟩, rep.2, tr⟩
          | (Except.error msg, tr) =>
            let rep := reportBridgeStatus ops env.reportTime
              { operationId := operationId
                txHash := ""
                fromChainId := fromChainId
                toChainId := toChainId
                token := tokenUpper
                amount := amount
                status := OpStatus.failed
                error := some msg }
            ⟨⟨s!"operation {operationId} failed: {msg}", true⟩, rep.2, tr⟩

/-- Trace events produced by the Allowance Guard (everything except the
engine invocation itself). -/
def isGuardEvent : NetEvent → Bool
  | NetEvent.engineBridge _ _ _ => false
  | _ => true

/-- An approval-transaction submission event. -/
def isApprovalEvent : NetEvent → Bool
  | NetEvent.approvalSubmitted _ _ _ _ => true
  | _ => false

/-- The engine's transfer invocation event. -/
def isEngineEvent : NetEvent → Bool
  | NetEvent.engineBridge _ _ _ => true
  | _ => false

/-! ## Helper lemmas -/

theorem mapGet_mapSet_self {κ α : Type} [DecidableEq κ] (l : List (κ × α))
    (k : κ) (v : α) : mapGet (mapSet l k v) k = some v := by
  induction l with
  | nil => simp [mapSet, mapGet]
  | cons e rest ih =>
    by_cases h : e.1 = k
    · simp [mapSet, mapGet, h]
    · simp [mapSet, mapGet, h, ih]

theorem mapSet_of_mapGet_none {κ α : Type} [DecidableEq κ] {l : List (κ × α)}
    {k : κ} (v : α) (h : mapGet l k = none) : mapSet l k v = l ++ [(k, v)] := by
  induction l with
  | nil => simp [mapSet]
  | cons e rest ih =>
    by_cases he : e.1 = k
    · simp [mapGet, he] at h
    · simp [mapGet, he] at h
      simp [mapSet, he, ih h]

theorem keyCount_of_mapGet_none {κ α : Type} [DecidableEq κ] {l : List (κ × α)}
    {k : κ} (h : mapGet l k = none) : keyCount l k = 0 := by
  induction l with
  | nil => rfl
  | cons e rest ih =>
    by_cases he : e.1 = k
    · simp [mapGet, he] at h
    · simp [mapGet, he] at h
      simpa [keyCount, List.filter_cons, he] using ih h

theorem one_le_keyCount_of_mapGet_some {κ α : Type} [DecidableEq κ]
    {l : List (κ × α)} {k : κ} {v : α} (h : mapGet l k = some v) :
    1 ≤ keyCount l k := by
  induction l with
  | nil => simp [mapGet] at h
  | cons e rest ih =>
    by_cases he : e.1 = k
    · simp [keyCount, List.filter_cons, he]
    · simp [mapGet, he] at h
      simpa [keyCount, List.filter_cons, he] using ih h

theorem keyCount_append_single {κ α : Type} [DecidableEq κ] (l : List (κ × α))
    (k : κ) (v : α) : keyCount (l ++ [(k, v)]) k = keyCount l k + 1 := by
  simp [keyCount, List.filter_append, List.filter_cons]

theorem digitChar_hexDigit : ∀ m, m < 16 → isHexDigitChar (Nat.digitChar m) = true := by
  decide

theorem hexCharsAux_all_hex (fuel : Nat) :
    ∀ n, (hexCharsAux fuel n).all isHexDigitChar = true := by
  induction fuel with
  | zero => intro n; rfl
  | succ fuel ih =>
    intro n
    unfold hexCharsAux
    by_cases h : n < 16
    · simp [h, digitChar_hexDigit n h]
    · have h16 : n % 16 < 16 := Nat.mod_lt _ (by decide)
      simp [h, ih (n / 16), digitChar_hexDigit _ h16]

theorem hexCharsAux_ne_nil (fuel n : Nat) (h : fuel ≠ 0) :
    hexCharsAux fuel n ≠ [] := by
  cases fuel with
  | zero => exact absurd rfl h
  | succ fuel =>
    unfold hexCharsAux
    by_cases h16 : n < 16 <;> simp [h16]

theorem isHexChainString_toHex (n : Nat) : isHexChainString (toHex n) = true := by
  have hall := hexCharsAux_all_hex (n + 1) n
  have hne := hexCharsAux_ne_nil (n + 1) n (Nat.succ_ne_zero n)
  unfold toHex isHexChainString
  simp only [String.data]
  simp [hall, List.isEmpty_iff, hne]

/-! ## Claim theorems -/

/-- Claim C5: for every chain id not present in the adapter's chain
registry, a `wallet_switchEthereumChain` request fails with the
unrecognized-chain code 4902 and leaves the provider state — in particular
the active chain id — unchanged, so a subsequent `eth_chainId` query
returns the same value as before the failed switch. -/
theorem c5_unknown_chain_switch (s : ProviderState) (id : Nat)
    (h : mapGet s.chainMap id = none) :
    wallet_switchEthereumChain s id =
      (SwitchResult.err 4902 s!"Unrecognized chain {id}", s) ∧
    eth_chainId (wallet_switchEthereumChain s id).2 = eth_chainId s := by
  unfold wallet_switchEthereumChain
  simp [h]

/-- Witness for C5: with only Base Sepolia (84532) registered, switching to
chain 1 fails with code 4902 and the state (hence `eth_chainId`) is
unchanged. -/
theorem c5_unknown_chain_switch_witness :
    mapGet (ProviderState.mk 84532 [(84532, ⟨84532, "Base Sepolia", none⟩)] []).chainMap 1
      = none ∧
    wallet_switchEthereumChain ⟨84532, [(84532, ⟨84532, "Base Sepolia", none⟩)], []⟩ 1 =
      (SwitchResult.err 4902 "Unrecognized chain 1",
       ⟨84532, [(84532, ⟨84532, "Base Sepolia", none⟩)], []⟩) ∧
    eth_chainId (wallet_switchEthereumChain
        ⟨84532, [(84532, ⟨84532, "Base Sepolia", none⟩)], []⟩ 1).2 =
      eth_chainId ⟨84532, [(84532, ⟨84532, "Base Sepolia", none⟩)], []⟩ :=
  ⟨rfl,
   (c5_unknown_chain_switch ⟨84532, [(84532, ⟨84532, "Base Sepolia", none⟩)], []⟩ 1 rfl).1,
   (c5_unknown_chain_switch ⟨84532, [(84532, ⟨84532, "Base Sepolia", none⟩)], []⟩ 1 rfl).2⟩

/-- Claim C6: for every chain id present in the registry, a chain-switch
request succeeds (returns `null`), a subsequent `eth_chainId` query returns
exactly that id as a 0x-prefixed lowercase hexadecimal string, and exactly
one `chainChanged` event is emitted, carrying the new id hex-encoded. -/
theorem c6_switch_success (s : ProviderState) (id : Nat) (e : ChainEntry)
    (h : mapGet s.chainMap id = some e) :
    (wallet_switchEthereumChain s id).1 = SwitchResult.ok ∧
    eth_chainId (wallet_switchEthereumChain s id).2 = toHex id ∧
    isHexChainString (eth_chainId (wallet_switchEthereumChain s id).2) = true ∧
    (wallet_switchEthereumChain s id).2.events =
      s.events ++ [("chainChanged", toHex id)] := by
  unfold wallet_switchEthereumChain eth_chainId
  simp [h, isHexChainString_toHex]

/-- Witness for C6: switching to registered chain 1 succeeds, `eth_chainId`
then returns `"0x1"`, and one `chainChanged` event with payload `"0x1"` is
appended. -/
theorem c6_switch_success_witness :
    mapGet (ProviderState.mk 84532
        [(84532, ⟨84532, "Base Sepolia", none⟩), (1, ⟨1, "Ethereum", none⟩)] []).chainMap 1
      = some ⟨1, "Ethereum", none⟩ ∧
    ((wallet_switchEthereumChain
        ⟨84532, [(84532, ⟨84532, "Base Sepolia", none⟩), (1, ⟨1, "Ethereum", none⟩)], []⟩
        1).1 = SwitchResult.ok ∧
     eth_chainId (wallet_switchEthereumChain
        ⟨84532, [(84532, ⟨84532, "Base Sepolia", none⟩), (1, ⟨1, "Ethereum", none⟩)], []⟩
        1).2 = toHex 1 ∧
     isHexChainString (eth_chainId (wallet_switchEthereumChain
        ⟨84532, [(84532, ⟨84532, "Base Sepolia", none⟩), (1, ⟨1, "Ethereum", none⟩)], []⟩
        1).2) = true ∧
     (wallet_switchEthereumChain
        ⟨84532, [(84532, ⟨84532, "Base Sepolia", none⟩), (1, ⟨1, "Ethereum", none⟩)], []⟩
        1).2.events = [] ++ [("chainChanged", toHex 1)]) :=
  ⟨rfl, c6_switch_success
    ⟨84532, [(84532, ⟨84532, "Base Sepolia", none⟩), (1, ⟨1, "Ethereum", none⟩)], []⟩
    1 ⟨1, "Ethereum", none⟩ rfl⟩

/-- Claim C7: chain registration is idempotent: registering the same id
twice (with possibly different payloads) returns `null` the second time,
the second call is a no-op on the state, the registry holds exactly one
entry for the id afterwards, and the entry recorded by the first
registration (in particular its RPC endpoint) is not altered. -/
theorem c7_add_chain_idempotent (s : ProviderState) (p1 p2 : AddChainParams)
    (hid : p2.chainId = p1.chainId) (hc : keyCount s.chainMap p1.chainId ≤ 1) :
    (wallet_addEthereumChain (wallet_addEthereumChain s p1).2 p2).1 = none ∧
    (wallet_addEthereumChain (wallet_addEthereumChain s p1).2 p2).2 =
      (wallet_addEthereumChain s p1).2 ∧
    keyCount (wallet_addEthereumChain (wallet_addEthereumChain s p1).2 p2).2.chainMap
      p1.chainId = 1 ∧
    mapGet (wallet_addEthereumChain (wallet_addEthereumChain s p1).2 p2).2.chainMap
        p1.chainId =
      mapGet (wallet_addEthereumChain s p1).2.chainMap p1.chainId := by
  cases hcase : mapGet s.chainMap p1.chainId with
  | some e =>
    have h1 : 1 ≤ keyCount s.chainMap p1.chainId :=
      one_le_keyCount_of_mapGet_some hcase
    unfold wallet_addEthereumChain
    simp [hid, hcase]
    omega
  | none =>
    have hset := mapSet_of_mapGet_none
      (⟨p1.chainId, p1.chainName, p1.rpcUrls.bind (fun urls => urls.head?)⟩ : ChainEntry)
      hcase
    have hget : mapGet
        (s.chainMap ++
          [(p1.chainId,
            (⟨p1.chainId, p1.chainName, p1.rpcUrls.bind (fun urls => urls.head?)⟩ :
              ChainEntry))]) p1.chainId =
        some ⟨p1.chainId, p1.chainName, p1.rpcUrls.bind (fun urls => urls.head?)⟩ := by
      rw [← hset]
      exact mapGet_mapSet_self s.chainMap p1.chainId _
    have hcount : keyCount
        (s.chainMap ++
          [(p1.chainId,
            (⟨p1.chainId, p1.chainName, p1.rpcUrls.bind (fun urls => urls.head?)⟩ :
              ChainEntry))]) p1.chainId = 1 := by
      rw [keyCount_append_single, keyCount_of_mapGet_none hcase]
    unfold wallet_addEthereumChain
    simp [hid, hcase, hset, hget, hcount]

/-- Witness for C7: registering chain 1 twice with different payloads from
a registry holding only chain 84532 leaves exactly one entry for chain 1,
the second call returns `null` and changes nothing, and the RPC endpoint
recorded by the first registration survives. -/
theorem c7_add_chain_idempotent_witness :
    (AddChainParams.mk 1 "Eth2" (some ["https://other.example"])).chainId =
      (AddChainParams.mk 1 "Ethereum" (some ["https://rpc.example"])).chainId ∧
    keyCount (ProviderState.mk 84532 [(84532, ⟨84532, "Base Sepolia", none⟩)] []).chainMap
      (AddChainParams.mk 1 "Ethereum" (some ["https://rpc.example"])).chainId ≤ 1 ∧
    ((wallet_addEthereumChain
        (wallet_addEthereumChain ⟨84532, [(84532, ⟨84532, "Base Sepolia", none⟩)], []⟩
          ⟨1, "Ethereum", some ["https://rpc.example"]⟩).2
        ⟨1, "Eth2", some ["https://other.example"]⟩).1 = none ∧
     (wallet_addEthereumChain
        (wallet_addEthereumChain ⟨84532, [(84532, ⟨84532, "Base Sepolia", none⟩)], []⟩
          ⟨1, "Ethereum", some ["https://rpc.example"]⟩).2
        ⟨1, "Eth2", some ["https://other.example"]⟩).2 =
       (wallet_addEthereumChain ⟨84532, [(84532, ⟨84532, "Base Sepolia", none⟩)], []⟩
          ⟨1, "Ethereum", some ["https://rpc.example"]⟩).2 ∧
     keyCount (wallet_addEthereumChain
        (wallet_addEthereumChain ⟨84532, [(84532, ⟨84532, "Base Sepolia", none⟩)], []⟩
          ⟨1, "Ethereum", some ["https://rpc.example"]⟩).2
        ⟨1, "Eth2", some ["https://other.example"]⟩).2.chainMap 1 = 1 ∧
     mapGet (wallet_addEthereumChain
        (wallet_addEthereumChain ⟨84532, [(84532, ⟨84532, "Base Sepolia", none⟩)], []⟩
          ⟨1, "Ethereum", some ["https://rpc.example"]⟩).2
        ⟨1, "Eth2", some ["https://other.example"]⟩).2.chainMap 1 =
       mapGet (wallet_addEthereumChain ⟨84532, [(84532, ⟨84532, "Base Sepolia", none⟩)], []⟩
          ⟨1, "Ethereum", some ["https://rpc.example"]⟩).2.chainMap 1) :=
  ⟨rfl, by decide,
   c7_add_chain_idempotent ⟨84532, [(84532, ⟨84532, "Base Sepolia", none⟩)], []⟩
     ⟨1, "Ethereum", some ["https://rpc.example"]⟩
     ⟨1, "Eth2", some ["https://other.example"]⟩ rfl (by decide)⟩

/-- Claim C8: calling `reportBridgeStatus` twice with the same operation id
(with a non-decreasing clock) preserves the `createdAt` of the first write
and makes the second `updatedAt` no earlier than the first; the second
record is what the ledger then stores. -/
theorem c8_createdAt_preserved (ops : OperationsMap) (t1 t2 : Nat)
    (d1 d2 : ReportData) (hid : d2.operationId = d1.operationId) (ht : t1 ≤ t2) :
    (reportBridgeStatus (reportBridgeStatus ops t1 d1).2 t2 d2).1.createdAt =
      (reportBridgeStatus ops t1 d1).1.createdAt ∧
    (reportBridgeStatus ops t1 d1).1.updatedAt ≤
      (reportBridgeStatus (reportBridgeStatus ops t1 d1).2 t2 d2).1.updatedAt ∧
    getBridgeStatus (reportBridgeStatus (reportBridgeStatus ops t1 d1).2 t2 d2).2
        d1.operationId =
      some (reportBridgeStatus (reportBridgeStatus ops t1 d1).2 t2 d2).1 := by
  refine ⟨?_, ?_, ?_⟩
  · simp [reportBridgeStatus, hid, mapGet_mapSet_self]
  · simpa [reportBridgeStatus] using ht
  · simp [getBridgeStatus, reportBridgeStatus, hid, mapGet_mapSet_self]

/-- Witness for C8: two writes to id `"op1"` at times 3 then 9 keep
`createdAt = 3` and move `updatedAt` from 3 to 9. -/
theorem c8_createdAt_preserved_witness :
    (ReportData.mk "op1" "" 10 8453 "USDC" "1" OpStatus.completed none).operationId =
      (ReportData.mk "op1" "" 10 8453 "USDC" "1" OpStatus.pending none).operationId ∧
    (3 : Nat) ≤ 9 ∧
    ((reportBridgeStatus (reportBridgeStatus [] 3
        ⟨"op1", "", 10, 8453, "USDC", "1", OpStatus.pending, none⟩).2 9
        ⟨"op1", "", 10, 8453, "USDC", "1", OpStatus.completed, none⟩).1.createdAt =
      (reportBridgeStatus [] 3
        ⟨"op1", "", 10, 8453, "USDC", "1", OpStatus.pending, none⟩).1.createdAt ∧
     (reportBridgeStatus [] 3
        ⟨"op1", "", 10, 8453, "USDC", "1", OpStatus.pending, none⟩).1.updatedAt ≤
      (reportBridgeStatus (reportBridgeStatus [] 3
        ⟨"op1", "", 10, 8453, "USDC", "1", OpStatus.pending, none⟩).2 9
        ⟨"op1", "", 10, 8453, "USDC", "1", OpStatus.completed, none⟩).1.updatedAt ∧
     getBridgeStatus (reportBridgeStatus (reportBridgeStatus [] 3
        ⟨"op1", "", 10, 8453, "USDC", "1", OpStatus.pending, none⟩).2 9
        ⟨"op1", "", 10, 8453, "USDC", "1", OpStatus.completed, none⟩).2 "op1" =
      some (reportBridgeStatus (reportBridgeStatus [] 3
        ⟨"op1", "", 10, 8453, "USDC", "1", OpStatus.pending, none⟩).2 9
        ⟨"op1", "", 10, 8453, "USDC", "1", OpStatus.completed, none⟩).1) :=
  ⟨rfl, by decide,
   c8_createdAt_preserved [] 3 9
     ⟨"op1", "", 10, 8453, "USDC", "1", OpStatus.pending, none⟩
     ⟨"op1", "", 10, 8453, "USDC", "1", OpStatus.completed, none⟩ rfl (by decide)⟩

/-- Claim C10: `reportBridgeStatus` is a full-field replacement, not a
merge: after two successive writes to the same id, the stored record's
`txHash`, chain ids, `token`, `amount`, `status`, and `error` all come from
the second write — a later empty `txHash` or absent `error` erases the
earlier value — and only `createdAt` is carried over (from the pre-existing
record, or the first write's time). -/
theorem c10_record_full_replacement (ops : OperationsMap) (t1 t2 : Nat)
    (d1 d2 : ReportData) (hid : d2.operationId = d1.operationId) :
    getBridgeStatus (reportBridgeStatus (reportBridgeStatus ops t1 d1).2 t2 d2).2
        d1.operationId =
      some { id := d1.operationId
             txHash := d2.txHash
             fromChainId := d2.fromChainId
             toChainId := d2.toChainId
             token := d2.token
             amount := d2.amount
             status := d2.status
             error := d2.error
             createdAt := match mapGet ops d1.operationId with
               | some e => e.createdAt
               | none => t1
             updatedAt := t2 } := by
  simp [getBridgeStatus, reportBridgeStatus, hid, mapGet_mapSet_self]

/-- Witness for C10: a second write with empty `txHash` and no `error`
erases the first write's `txHash "0xaaa"` and `error`; all other fields
come from the second write and `createdAt` stays at the first write's
time. -/
theorem c10_record_full_replacement_witness :
    (ReportData.mk "op1" "" 42161 137 "USDT" "7" OpStatus.pending none).operationId =
      (ReportData.mk "op1" "0xaaa" 10 8453 "USDC" "1" OpStatus.failed
        (some "boom")).operationId ∧
    getBridgeStatus (reportBridgeStatus (reportBridgeStatus [] 3
        ⟨"op1", "0xaaa", 10, 8453, "USDC", "1", OpStatus.failed, some "boom"⟩).2 9
        ⟨"op1", "", 42161, 137, "USDT", "7", OpStatus.pending, none⟩).2 "op1" =
      some ⟨"op1", "", 42161, 137, "USDT", "7", OpStatus.pending, none, 3, 9⟩ :=
  ⟨rfl,
   c10_record_full_replacement [] 3 9
     ⟨"op1", "0xaaa", 10, 8453, "USDC", "1", OpStatus.failed, some "boom"⟩
     ⟨"op1", "", 42161, 137, "USDT", "7", OpStatus.pending, none⟩ rfl⟩

/-- If `runTry` returns a normal engine result, that result is exactly what
`engineOutcome` produced and the raw amount is the parsed conversion of the
human amount. -/
theorem runTry_ok_inv {tn : Bool} {env : ExecEnv} {f t : Nat} {tu am : String}
    {d : Nat} {r : BridgeResult} {raw : Nat} {tr : List NetEvent}
    (h : runTry tn env f t tu am d = (Except.ok (r, raw), tr)) :
    engineOutcome env.engine = Except.ok r ∧ rawAmountOf am d = some raw := by
  unfold runTry runEngine at h
  cases hra : rawAmountOf am d with
  | none => simp only [hra] at h; simp at h
  | some raw0 =>
    simp only [hra] at h
    cases hv : mapGet (vaultContracts tn) f with
    | some vault =>
      simp only [hv] at h
      cases hta : getTokenAddress tu f with
      | some ta =>
        simp only [hta] at h
        rcases hpre : preApprove env f ta vault raw0 with ⟨pe, ptr⟩
        cases pe with
        | error e => simp only [hpre] at h; simp at h
        | ok u =>
          simp only [hpre] at h
          cases heng : engineOutcome env.engine with
          | error e => simp only [heng] at h; simp at h
          | ok r0 =>
            simp only [heng] at h
            simp at h
            obtain ⟨⟨hr, hraw⟩, htr⟩ := h
            subst hr; subst hraw
            exact ⟨rfl, rfl⟩
      | none =>
        simp only [hta] at h
        cases heng : engineOutcome env.engine with
        | error e => simp only [heng] at h; simp at h
        | ok r0 =>
          simp only [heng] at h
          simp at h
          obtain ⟨⟨hr, hraw⟩, htr⟩ := h
          subst hr; subst hraw
          exact ⟨rfl, rfl⟩
    | none =>
      simp only [hv] at h
      cases heng : engineOutcome env.engine with
      | error e => simp only [heng] at h; simp at h
      | ok r0 =>
        simp only [heng] at h
        simp at h
        obtain ⟨⟨hr, hraw⟩, htr⟩ := h
        subst hr; subst hraw
        exact ⟨rfl, rfl⟩

/-- A `NexusService.bridge` result with `success = false` always carries an
error message. -/
theorem engineOutcome_ok_failed_error {e : EngineRun} {r : BridgeResult}
    (h : engineOutcome e = Except.ok r) (hs : r.success = false) :
    r.error.isSome = true := by
  cases e with
  | throws m => simp [engineOutcome] at h
  | completedRun tx ex =>
    simp [engineOutcome] at h
    subst h
    simp at hs
  | failedRun m =>
    simp [engineOutcome] at h
    subst h
    rfl

/-- Claim C1 (amended): every `execute_bridge` call that passes the
configuration check (signing key present) and validation (both chains
supported, token symbol known) leaves a queryable ledger entry for its
operation id; when such a call fails, the entry has status `failed` and
carries an error string.  (Configuration and validation failures, by
contrast, return an error response without writing to the ledger — see the
counterexample.) -/
theorem c1_execution_attempt_ledgered (cfg : EnvConfig) (env : ExecEnv)
    (ops : OperationsMap) (fromChainId toChainId : Nat) (token amount : String)
    (pk : String) (hk : cfg.PRIVATE_KEY = some pk)
    (fc : ChainConfig) (hf : getChainById fromChainId (isTestnetFor cfg) = some fc)
    (tc : ChainConfig) (ht : getChainById toChainId (isTestnetFor cfg) = some tc)
    (tk : TokenConfig) (htok : mapGet SUPPORTED_TOKENS (toUpperStr token) = some tk) :
    (getBridgeStatus (execute_bridge cfg env ops fromChainId toChainId token amount).ops
      env.opId).isSome = true ∧
    ((execute_bridge cfg env ops fromChainId toChainId token amount).response.isError = true →
      (getBridgeStatus (execute_bridge cfg env ops fromChainId toChainId token amount).ops
        env.opId).map (fun op => op.status) = some OpStatus.failed ∧
      (getBridgeStatus (execute_bridge cfg env ops fromChainId toChainId token amount).ops
        env.opId).map (fun op => op.error.isSome) = some true) := by
  unfold execute_bridge
  simp only [hk, hf, ht, htok]
  rcases hrt : runTry (isTestnetFor cfg) env fromChainId toChainId (toUpperStr token)
      amount tk.decimals with ⟨res, tr⟩
  cases res with
  | error msg =>
    constructor
    · simp [getBridgeStatus, reportBridgeStatus, mapGet_mapSet_self]
    · intro _
      constructor <;> simp [getBridgeStatus, reportBridgeStatus, mapGet_mapSet_self]
  | ok pr =>
    rcases pr with ⟨r, raw⟩
    have hio := runTry_ok_inv hrt
    constructor
    · simp [getBridgeStatus, reportBridgeStatus, mapGet_mapSet_self]
    · intro hie
      have hs : r.success = false := by simpa using hie
      have herr := engineOutcome_ok_failed_error hio.1 hs
      constructor
      · simp [getBridgeStatus, reportBridgeStatus, mapGet_mapSet_self, hs]
      · simp [getBridgeStatus, reportBridgeStatus, mapGet_mapSet_self, herr]

/-- Counterexample to claim C1 as stated: an `execute_bridge` call that
fails with a configuration error (no signing key) returns an error response
but leaves the Operation Ledger empty — no ledger entry for the attempt
exists and the generated operation id is not queryable. -/
theorem c1_counterexample :
    (execute_bridge ⟨"testnet", none⟩
      ⟨"bridge-1", 5, Except.ok 0, Except.ok "0xap", Except.ok (),
        EngineRun.throws "x"⟩ [] 84532 421614 "USDC" "1").response.isError = true ∧
    (execute_bridge ⟨"testnet", none⟩
      ⟨"bridge-1", 5, Except.ok 0, Except.ok "0xap", Except.ok (),
        EngineRun.throws "x"⟩ [] 84532 421614 "USDC" "1").ops = [] ∧
    getBridgeStatus (execute_bridge ⟨"testnet", none⟩
      ⟨"bridge-1", 5, Except.ok 0, Except.ok "0xap", Except.ok (),
        EngineRun.throws "x"⟩ [] 84532 421614 "USDC" "1").ops "bridge-1" = none :=
  ⟨rfl, rfl, rfl⟩

/-- Witness for C1 (amended): a concrete post-validation call whose engine
reports failure yields a queryable `failed` ledger entry with an error
string. -/
theorem c1_execution_attempt_ledgered_witness :
    (EnvConfig.mk "mainnet" (some "0xkey")).PRIVATE_KEY = some "0xkey" ∧
    getChainById 10 (isTestnetFor ⟨"mainnet", some "0xkey"⟩) =
      some ⟨10, "eip155:10", "Optimism", some "https://mainnet.optimism.io",
        some "https://optimistic.etherscan.io"⟩ ∧
    getChainById 8453 (isTestnetFor ⟨"mainnet", some "0xkey"⟩) =
      some ⟨8453, "eip155:8453", "Base", some "https://mainnet.base.org",
        some "https://basescan.org"⟩ ∧
    mapGet SUPPORTED_TOKENS (toUpperStr "USDC") =
      some ⟨"USDC", "USD Coin", 6,
        [(8453, "0x833589fCD6eDb6E08f4c7C32D4f71b54bdA02913"),
         (10, "0x0b2C639c533813f4Aa9D7837CAf62653d097Ff85"),
         (42161, "0xaf88d065e77c8cC2239327C5EDb3A432268e5831"),
         (137, "0x3c499c542cEF5E3811e1192ce70d8cC03d5c3359"),
         (84532, "0x036CbD53842c5426634e7929541eC2318f3dCF7e"),
         (11155420, "0x5fd84259d66Cd46123540766Be93DFE6D43130D7"),
         (421614, "0x75faf114eafb1BDbe2F0316DF893fd58CE46AA4d")]⟩ ∧
    ((getBridgeStatus (execute_bridge ⟨"mainnet", some "0xkey"⟩
        ⟨"bridge-2", 5, Except.ok 0, Except.ok "0xap", Except.ok (),
          EngineRun.failedRun "insufficient funds"⟩
        [] 10 8453 "USDC" "25").ops "bridge-2").isSome = true ∧
     ((execute_bridge ⟨"mainnet", some "0xkey"⟩
        ⟨"bridge-2", 5, Except.ok 0, Except.ok "0xap", Except.ok (),
          EngineRun.failedRun "insufficient funds"⟩
        [] 10 8453 "USDC" "25").response.isError = true →
      (getBridgeStatus (execute_bridge ⟨"mainnet", some "0xkey"⟩
        ⟨"bridge-2", 5, Except.ok 0, Except.ok "0xap", Except.ok (),
          EngineRun.failedRun "insufficient funds"⟩
        [] 10 8453 "USDC" "25").ops "bridge-2").map (fun op => op.status) =
          some OpStatus.failed ∧
      (getBridgeStatus (execute_bridge ⟨"mainnet", some "0xkey"⟩
        ⟨"bridge-2", 5, Except.ok 0, Except.ok "0xap", Except.ok (),
          EngineRun.failedRun "insufficient funds"⟩
        [] 10 8453 "USDC" "25").ops "bridge-2").map (fun op => op.error.isSome) =
          some true)) :=
  ⟨rfl, rfl, rfl, rfl,
   c1_execution_attempt_ledgered ⟨"mainnet", some "0xkey"⟩
     ⟨"bridge-2", 5, Except.ok 0, Except.ok "0xap", Except.ok (),
       EngineRun.failedRun "insufficient funds"⟩
     [] 10 8453 "USDC" "25" "0xkey" rfl _ rfl _ rfl _ rfl⟩

/-- Claim C2 (amended): an `execute_bridge` call whose source or destination
chain is unsupported in the active network mode, or whose token symbol is
unknown, returns a descriptive validation error before any ledger entry is
created and before any network call occurs.  (A token that is merely
missing an address on the source or destination chain is NOT rejected up
front: the allowance guard is skipped and the engine is still invoked —
see the counterexample.) -/
theorem c2_validation_fails_fast (cfg : EnvConfig) (env : ExecEnv) (ops : OperationsMap)
    (fromChainId toChainId : Nat) (token amount : String)
    (h : getChainById fromChainId (isTestnetFor cfg) = none ∨
         getChainById toChainId (isTestnetFor cfg) = none ∨
         mapGet SUPPORTED_TOKENS (toUpperStr token) = none) :
    (execute_bridge cfg env ops fromChainId toChainId token amount).response.isError = true ∧
    (execute_bridge cfg env ops fromChainId toChainId token amount).ops = ops ∧
    (execute_bridge cfg env ops fromChainId toChainId token amount).trace = [] := by
  unfold execute_bridge
  cases hk : cfg.PRIVATE_KEY with
  | none => simp
  | some pk =>
    rcases h with hf | ht | htok
    · simp [hf]
    · cases hf2 : getChainById fromChainId (isTestnetFor cfg) <;> simp [hf2, ht]
    · cases hf2 : getChainById fromChainId (isTestnetFor cfg) with
      | none => simp [hf2]
      | some fc =>
        cases ht2 : getChainById toChainId (isTestnetFor cfg) <;> simp [hf2, ht2, htok]

/-- Counterexample to claim C2 as stated: on testnet, USDT is a known token
symbol with no address on Base Sepolia (84532), yet
`execute_bridge(84532, 421614, "USDT", "1")` is not rejected by validation:
the engine is invoked (a network call occurs) and a ledger entry is
created. -/
theorem c2_counterexample :
    getTokenAddress "USDT" 84532 = none ∧
    (execute_bridge ⟨"testnet", some "0xkey"⟩
      ⟨"bridge-1", 5, Except.ok 0, Except.ok "0xap", Except.ok (),
        EngineRun.failedRun "no route"⟩ [] 84532 421614 "USDT" "1").trace =
      [NetEvent.engineBridge "USDT" 1000000 421614] ∧
    (getBridgeStatus (execute_bridge ⟨"testnet", some "0xkey"⟩
      ⟨"bridge-1", 5, Except.ok 0, Except.ok "0xap", Except.ok (),
        EngineRun.failedRun "no route"⟩ [] 84532 421614 "USDT" "1").ops
      "bridge-1").isSome = true :=
  ⟨rfl, rfl, rfl⟩

/-- Witness for C2 (amended): `execute_bridge(42161, 999999, "USDC", "10")`
in mainnet mode, where chain 999999 is unsupported, returns a validation
error with the ledger unchanged and no network call. -/
theorem c2_validation_fails_fast_witness :
    getChainById 999999 (isTestnetFor ⟨"mainnet", some "0xkey"⟩) = none ∧
    ((execute_bridge ⟨"mainnet", some "0xkey"⟩
        ⟨"bridge-5", 5, Except.ok 0, Except.ok "0xap", Except.ok (),
          EngineRun.throws "x"⟩
        [] 42161 999999 "USDC" "10").response.isError = true ∧
     (execute_bridge ⟨"mainnet", some "0xkey"⟩
        ⟨"bridge-5", 5, Except.ok 0, Except.ok "0xap", Except.ok (),
          EngineRun.throws "x"⟩
        [] 42161 999999 "USDC" "10").ops = [] ∧
     (execute_bridge ⟨"mainnet", some "0xkey"⟩
        ⟨"bridge-5", 5, Except.ok 0, Except.ok "0xap", Except.ok (),
          EngineRun.throws "x"⟩
        [] 42161 999999 "USDC" "10").trace = []) :=
  ⟨rfl,
   c2_validation_fails_fast ⟨"mainnet", some "0xkey"⟩
     ⟨"bridge-5", 5, Except.ok 0, Except.ok "0xap", Except.ok (),
       EngineRun.throws "x"⟩
     [] 42161 999999 "USDC" "10" (Or.inr (Or.inl rfl))⟩

/-- Claim C3 (amended): for a `execute_bridge` call that passes validation
and whose amount parses, the ledger entry written for the attempt stores,
in its `amount` field, the decimal string of the raw integer units when the
engine ran to a normal result (success or reported failure), and the
human-readable input string when an exception was caught. -/
theorem c3_amount_field (cfg : EnvConfig) (env : ExecEnv) (ops : OperationsMap)
    (fromChainId toChainId : Nat) (token amount : String)
    (pk : String) (hk : cfg.PRIVATE_KEY = some pk)
    (fc : ChainConfig) (hf : getChainById fromChainId (isTestnetFor cfg) = some fc)
    (tc : ChainConfig) (ht : getChainById toChainId (isTestnetFor cfg) = some tc)
    (tk : TokenConfig) (htok : mapGet SUPPORTED_TOKENS (toUpperStr token) = some tk)
    (raw : Nat) (hra : rawAmountOf amount tk.decimals = some raw) :
    (getBridgeStatus (execute_bridge cfg env ops fromChainId toChainId token amount).ops
      env.opId).map (fun op => op.amount) =
      some (match (runTry (isTestnetFor cfg) env fromChainId toChainId (toUpperStr token)
              amount tk.decimals).1 with
            | Except.ok _ => toString raw
            | Except.error _ => amount) := by
  unfold execute_bridge
  simp only [hk, hf, ht, htok]
  rcases hrt : runTry (isTestnetFor cfg) env fromChainId toChainId (toUpperStr token)
      amount tk.decimals with ⟨res, tr⟩
  cases res with
  | error msg => simp [getBridgeStatus, reportBridgeStatus, mapGet_mapSet_self]
  | ok pr =>
    rcases pr with ⟨r, raw0⟩
    have hio := runTry_ok_inv hrt
    have hr0 : raw0 = raw := by
      rw [hio.2] at hra
      exact Option.some.inj hra
    subst hr0
    simp [getBridgeStatus, reportBridgeStatus, mapGet_mapSet_self]

/-- Counterexample to claim C3 as stated: when the engine throws, the
caught-exception path stores the human-readable input string `"25"` in the
ledger entry's `amount` field, not the decimal string `"25000000"` of the
raw units computed from 25 USDC at 6 decimals. -/
theorem c3_counterexample :
    rawAmountOf "25" 6 = some 25000000 ∧
    getBridgeStatus (execute_bridge ⟨"mainnet", some "0xkey"⟩
      ⟨"bridge-1", 5, Except.ok 0, Except.ok "0xap", Except.ok (),
        EngineRun.throws "engine crashed"⟩ [] 10 8453 "USDC" "25").ops "bridge-1" =
      some ⟨"bridge-1", "", 10, 8453, "USDC", "25", OpStatus.failed,
        some "engine crashed", 5, 5⟩ ∧
    "25" ≠ "25000000" :=
  ⟨rfl, rfl, by decide⟩

/-- Witness for C3 (amended): an engine-reported failure stores the raw
units string `"25000000"` for input `"25"` at 6 decimals. -/
theorem c3_amount_field_witness :
    rawAmountOf "25" 6 = some 25000000 ∧
    (getBridgeStatus (execute_bridge ⟨"mainnet", some "0xkey"⟩
        ⟨"bridge-3", 5, Except.ok 1000000000000, Except.ok "0xap", Except.ok (),
          EngineRun.failedRun "slippage"⟩
        [] 10 8453 "USDC" "25").ops "bridge-3").map (fun op => op.amount) =
      some "25000000" :=
  ⟨rfl,
   c3_amount_field ⟨"mainnet", some "0xkey"⟩
     ⟨"bridge-3", 5, Except.ok 1000000000000, Except.ok "0xap", Except.ok (),
       EngineRun.failedRun "slippage"⟩
     [] 10 8453 "USDC" "25" "0xkey" rfl _ rfl _ rfl _ rfl 25000000 rfl⟩

/-- Claim C4: for every post-validation `execute_bridge` call with a parsed
raw amount, a successful allowance read, and a successful approval
submission: if no vault address is configured for the source chain the
Allowance Guard is skipped entirely (no guard events at all); if the
current allowance is at least twice the requested raw amount no approval
transaction is submitted; otherwise exactly one approval transaction
requesting `maxUint256 = 2^256 - 1` is submitted, and whenever the
engine's transfer step is reached it is preceded by the two-confirmation
wait. -/
theorem c4_allowance_guard (cfg : EnvConfig) (env : ExecEnv) (ops : OperationsMap)
    (fromChainId toChainId : Nat) (token amount : String)
    (pk : String) (hk : cfg.PRIVATE_KEY = some pk)
    (fc : ChainConfig) (hf : getChainById fromChainId (isTestnetFor cfg) = some fc)
    (tc : ChainConfig) (ht : getChainById toChainId (isTestnetFor cfg) = some tc)
    (tk : TokenConfig) (htok : mapGet SUPPORTED_TOKENS (toUpperStr token) = some tk)
    (raw : Nat) (hra : rawAmountOf amount tk.decimals = some raw)
    (a : Nat) (ha : env.allowance = Except.ok a)
    (txh : String) (hap : env.approveTx = Except.ok txh) :
    (mapGet (vaultContracts (isTestnetFor cfg)) fromChainId = none →
      (execute_bridge cfg env ops fromChainId toChainId token amount).trace.filter
        isGuardEvent = []) ∧
    (¬ a < 2 * raw →
      (execute_bridge cfg env ops fromChainId toChainId token amount).trace.filter
        isApprovalEvent = []) ∧
    (a < 2 * raw →
      (execute_bridge cfg env ops fromChainId toChainId token amount).trace.filter
        isApprovalEvent =
        (match mapGet (vaultContracts (isTestnetFor cfg)) fromChainId,
               getTokenAddress (toUpperStr token) fromChainId with
         | some vault, some ta =>
            [NetEvent.approvalSubmitted fromChainId ta vault maxUint256]
         | _, _ => [])) ∧
    ((mapGet (vaultContracts (isTestnetFor cfg)) fromChainId).isSome = true →
      (getTokenAddress (toUpperStr token) fromChainId).isSome = true →
      a < 2 * raw →
      (execute_bridge cfg env ops fromChainId toChainId token amount).trace.any
        isEngineEvent = true →
      NetEvent.waitConfirmations 2 ∈
        (execute_bridge cfg env ops fromChainId toChainId token amount).trace.takeWhile
          (fun ev => !(isEngineEvent ev))) := by
  unfold execute_bridge
  simp only [hk, hf, ht, htok]
  unfold runTry preApprove runEngine
  simp only [hra, ha, hap]
  refine ⟨?_, ?_, ?_, ?_⟩
  · intro hv
    cases heng : engineOutcome env.engine <;>
      simp [hv, isGuardEvent]
  · intro hnlt
    cases hv : mapGet (vaultContracts (isTestnetFor cfg)) fromChainId with
    | none =>
      cases heng : engineOutcome env.engine <;> simp [hv, isApprovalEvent]
    | some vault =>
      cases hta : getTokenAddress (toUpperStr token) fromChainId with
      | none =>
        cases heng : engineOutcome env.engine <;> simp [hv, hta, isApprovalEvent]
      | some ta =>
        cases heng : engineOutcome env.engine <;>
          simp [hv, hta, hnlt, isApprovalEvent]
  · intro hlt
    cases hv : mapGet (vaultContracts (isTestnetFor cfg)) fromChainId with
    | none =>
      cases heng : engineOutcome env.engine <;> simp [hv, isApprovalEvent]
    | some vault =>
      cases hta : getTokenAddress (toUpperStr token) fromChainId with
      | none =>
        cases heng : engineOutcome env.engine <;> simp [hv, hta, isApprovalEvent]
      | some ta =>
        cases hw : env.waitReceipt with
        | error e => simp [hv, hta, hlt, hw, isApprovalEvent]
        | ok u =>
          cases heng : engineOutcome env.engine <;>
            simp [hv, hta, hlt, hw, isApprovalEvent]
  · intro hvs hts hlt hany
    cases hv : mapGet (vaultContracts (isTestnetFor cfg)) fromChainId with
    | none => rw [hv] at hvs; simp at hvs
    | some vault =>
      cases hta : getTokenAddress (toUpperStr token) fromChainId with
      | none => rw [hta] at hts; simp at hts
      | some ta =>
        cases hw : env.waitReceipt with
        | error e =>
          rw [hv, hta, hw] at hany
          simp [hlt, isEngineEvent] at hany
        | ok u =>
          cases heng : engineOutcome env.engine <;>
            simp [hv, hta, hlt, hw, isEngineEvent, List.takeWhile]

/-- Witness for C4: a concrete mainnet USDC bridge from Optimism with zero
current allowance takes the approval path: one `maxUint256` approval is
submitted and the engine call is preceded by the two-confirmation wait. -/
theorem c4_allowance_guard_witness :
    rawAmountOf "25" 6 = some 25000000 ∧
    (ExecEnv.mk "bridge-4" 5 (Except.ok 0) (Except.ok "0xap") (Except.ok ())
      (EngineRun.completedRun (some "0xabc") none)).allowance = Except.ok 0 ∧
    (ExecEnv.mk "bridge-4" 5 (Except.ok 0) (Except.ok "0xap") (Except.ok ())
      (EngineRun.completedRun (some "0xabc") none)).approveTx = Except.ok "0xap" ∧
    ((mapGet (vaultContracts (isTestnetFor ⟨"mainnet", some "0xkey"⟩)) 10 = none →
      (execute_bridge ⟨"mainnet", some "0xkey"⟩
        ⟨"bridge-4", 5, Except.ok 0, Except.ok "0xap", Except.ok (),
          EngineRun.completedRun (some "0xabc") none⟩
        [] 10 8453 "USDC" "25").trace.filter isGuardEvent = []) ∧
     (¬ (0 : Nat) < 2 * 25000000 →
      (execute_bridge ⟨"mainnet", some "0xkey"⟩
        ⟨"bridge-4", 5, Except.ok 0, Except.ok "0xap", Except.ok (),
          EngineRun.completedRun (some "0xabc") none⟩
        [] 10 8453 "USDC" "25").trace.filter isApprovalEvent = []) ∧
     ((0 : Nat) < 2 * 25000000 →
      (execute_bridge ⟨"mainnet", some "0xkey"⟩
        ⟨"bridge-4", 5, Except.ok 0, Except.ok "0xap", Except.ok (),
          EngineRun.completedRun (some "0xabc") none⟩
        [] 10 8453 "USDC" "25").trace.filter isApprovalEvent =
        (match mapGet (vaultContracts (isTestnetFor ⟨"mainnet", some "0xkey"⟩)) 10,
               getTokenAddress (toUpperStr "USDC") 10 with
         | some vault, some ta =>
            [NetEvent.approvalSubmitted 10 ta vault maxUint256]
         | _, _ => [])) ∧
     ((mapGet (vaultContracts (isTestnetFor ⟨"mainnet", some "0xkey"⟩)) 10).isSome = true →
      (getTokenAddress (toUpperStr "USDC") 10).isSome = true →
      (0 : Nat) < 2 * 25000000 →
      (execute_bridge ⟨"mainnet", some "0xkey"⟩
        ⟨"bridge-4", 5, Except.ok 0, Except.ok "0xap", Except.ok (),
          EngineRun.completedRun (some "0xabc") none⟩
        [] 10 8453 "USDC" "25").trace.any isEngineEvent = true →
      NetEvent.waitConfirmations 2 ∈
        (execute_bridge ⟨"mainnet", some "0xkey"⟩
          ⟨"bridge-4", 5, Except.ok 0, Except.ok "0xap", Except.ok (),
            EngineRun.completedRun (some "0xabc") none⟩
          [] 10 8453 "USDC" "25").trace.takeWhile (fun ev => !(isEngineEvent ev)))) :=
  ⟨rfl, rfl, rfl,
   c4_allowance_guard ⟨"mainnet", some "0xkey"⟩
     ⟨"bridge-4", 5, Except.ok 0, Except.ok "0xap", Except.ok (),
       EngineRun.completedRun (some "0xabc") none⟩
     [] 10 8453 "USDC" "25" "0xkey" rfl _ rfl _ rfl _ rfl 25000000 rfl 0 rfl
     "0xap" rfl⟩

/-- Claim C9: for `execute_bridge(10, 8453, "USDC", "25")` with USDC at 6
decimals, the raw amount computed from the human-readable amount is exactly
25000000, and when the engine reports success with transaction hash
`0xabc` the resulting ledger entry has status `completed`,
`txHash = "0xabc"`, and `amount = "25000000"`. -/
theorem c9_usdc_25_scenario :
    (mapGet SUPPORTED_TOKENS "USDC").map (fun tk => tk.decimals) = some 6 ∧
    rawAmountOf "25" 6 = some 25000000 ∧
    getBridgeStatus (execute_bridge ⟨"mainnet", some "0xkey"⟩
      ⟨"bridge-1", 7, Except.ok 1000000000000, Except.ok "0xap", Except.ok (),
        EngineRun.completedRun (some "0xabc") none⟩
      [] 10 8453 "USDC" "25").ops "bridge-1" =
      some ⟨"bridge-1", "0xabc", 10, 8453, "USDC", "25000000", OpStatus.completed,
        none, 7, 7⟩ :=
  ⟨rfl, rfl, rfl⟩
